import Mathlib

/-!
Verification of the getDeviceInfo script (src/script.js).

The script probes a browser environment for capabilities and renders one
titled card per probe, each card holding key/value rows.  We give a shallow
embedding: JavaScript values flowing into the renderer are an inductive
`JSVal`; each `gather*` probe becomes a function from an explicit
environment record `Env` (the browser APIs the script reads, each either
absent, throwing, or returning a value) to a `Card`; a probe that can let
an exception escape returns `Except Unit Card`.  The orchestrator
`gatherAll` and the timing of `initFlow` / the refresh handler are embedded
as well.
-/

/-- Helper: `Nat.toDigitsCore` never shrinks the accumulator list. -/
theorem toDigitsCore_length_mono (b : Nat) : ∀ (f n : Nat) (l : List Char),
    l.length ≤ (Nat.toDigitsCore b f n l).length := by
  intro f
  induction f with
  | zero => intro n l; simp [Nat.toDigitsCore]
  | succ f ih =>
    intro n l
    simp only [Nat.toDigitsCore]
    split
    · simp
    · exact le_trans (by simp) (ih (n / b) (Nat.digitChar (n % b) :: l))

/-- Helper: the decimal digit list of a natural number is non-empty. -/
theorem toDigits_ne_nil (n : Nat) : Nat.toDigits 10 n ≠ [] := by
  simp only [Nat.toDigits, Nat.toDigitsCore]
  split
  · simp
  · intro h
    have := toDigitsCore_length_mono 10 n (n / 10) [Nat.digitChar (n % 10)]
    rw [h] at this
    simp at this

/-- Helper: `Nat.repr` is never the empty string. -/
theorem nat_repr_ne_empty (n : Nat) : Nat.repr n ≠ "" := by
  simp only [Nat.repr]
  intro h
  have : (Nat.toDigits 10 n) = [] := by
    have := congrArg String.data h
    simpa [List.asString] using this
  exact toDigits_ne_nil n this

/-- Helper: `Int.repr` is never the empty string. -/
theorem int_repr_ne_empty (n : Int) : Int.repr n ≠ "" := by
  cases n with
  | ofNat m => simpa [Int.repr] using nat_repr_ne_empty m
  | negSucc m =>
    simp only [Int.repr]
    intro h
    have := congrArg String.length h
    simp [String.length_append] at this
    exact absurd this.1 (by decide)

/-- A JavaScript value as it reaches the rendering layer of script.js:
`undefined`, `null`, a string, a boolean, or a number (the script only
feeds integer-valued numbers into rows whose text matters to the spec). -/
inductive JSVal where
  | vUndefined : JSVal
  | vNull : JSVal
  | vStr : String → JSVal
  | vBool : Bool → JSVal
  | vNum : Int → JSVal
deriving DecidableEq

/-- JavaScript `String(v)` on the values of `JSVal`. -/
def jsString : JSVal → String
  | .vUndefined => "undefined"
  | .vNull => "null"
  | .vStr s => s
  | .vBool true => "true"
  | .vBool false => "false"
  | .vNum n => Int.repr n

/-- JavaScript truthiness of a `JSVal` (`undefined`, `null`, `""`, `false`,
`0` are falsy). -/
def truthy : JSVal → Bool
  | .vUndefined => false
  | .vNull => false
  | .vStr s => s ≠ ""
  | .vBool b => b
  | .vNum n => n ≠ 0

/-- JavaScript `a || b`. -/
def jsOr (a b : JSVal) : JSVal := if truthy a then a else b

/-- JavaScript `a ?? b` (nullish coalescing). -/
def jsNullish (a b : JSVal) : JSVal :=
  if a = .vUndefined ∨ a = .vNull then b else a

/-- One key/value row as rendered by `mkKV` (script.js lines 29-40): the
key text and the value text actually displayed. -/
structure KV where
  key : String
  val : String
deriving DecidableEq

/-- The content of a card: `mkCard` (script.js lines 13-27) receives either
a plain string (rendered as one paragraph) or an element holding rows. -/
inductive CardContent where
  | para : String → CardContent
  | rows : List KV → CardContent
deriving DecidableEq

/-- A rendered card: title plus content (script.js `mkCard`). -/
structure Card where
  title : String
  content : CardContent
deriving DecidableEq

/-- `mkCard(title, contentEl)` with an element argument (script.js line 24). -/
def mkCard (title : String) (rows : List KV) : Card :=
  ⟨title, .rows rows⟩

/-- `mkCard(title, contentEl)` with a string argument: the paragraph text is
`contentEl || 'unknown'` (script.js line 21). -/
def mkCardStr (title s : String) : Card :=
  ⟨title, .para (if s = "" then "unknown" else s)⟩

/-- `mkKV(key, val)` (script.js lines 29-40): the displayed value is
`'unknown'` when `val` is `undefined`, `null` or the empty string, and
`String(val)` otherwise. -/
def mkKV (key : String) (val : JSVal) : KV :=
  ⟨key, if val = .vUndefined ∨ val = .vNull ∨ val = .vStr "" then "unknown"
        else jsString val⟩

/-- `safe(fn, fallback)` (script.js lines 42-48) on a synchronous `fn`,
embedded as the `Except` outcome of running `fn`: a thrown exception or a
nullish result is replaced by the fallback.  Every call in the script uses
the default fallback `'unknown'`. -/
def safe (fn : Except Unit JSVal) (fallback : JSVal) : JSVal :=
  match fn with
  | .error _ => fallback
  | .ok v => if v = .vUndefined ∨ v = .vNull then fallback else v

/-- The displayed value of a `mkKV` row is never the empty string. -/
theorem mkKV_val_ne_empty (key : String) (v : JSVal) : (mkKV key v).val ≠ "" := by
  simp only [mkKV]
  split
  · simp
  · cases v with
    | vUndefined => simp [jsString]
    | vNull => simp [jsString]
    | vStr s =>
      intro h
      simp only [jsString] at h
      subst h
      simp_all
    | vBool b => cases b <;> simp [jsString]
    | vNum n => simpa [jsString] using int_repr_ne_empty n

/-- C1: for every key/value pair rendered via `mkKV` (including values
routed through `safe`), the displayed value is a non-empty string.
`undefined`, `null` and the empty string are replaced by the sentinel
`"unknown"`; a throwing function routed through `safe` with the default
fallback yields `"unknown"` as well; a capability-absence value
`"unsupported"` is displayed verbatim; any other value is displayed as its
string form, which is itself non-empty. -/
theorem C1_mkKV_safe_display (key : String) (v : JSVal) (e : Unit) :
    (mkKV key v).val ≠ ""
    ∧ ((v = .vUndefined ∨ v = .vNull ∨ v = .vStr "") →
        (mkKV key v).val = "unknown")
    ∧ (¬(v = .vUndefined ∨ v = .vNull ∨ v = .vStr "") →
        (mkKV key v).val = jsString v ∧ jsString v ≠ "")
    ∧ safe (.error e) (.vStr "unknown") = .vStr "unknown"
    ∧ (mkKV key (safe (.error e) (.vStr "unknown"))).val = "unknown"
    ∧ (mkKV key (.vStr "unsupported")).val = "unsupported" := by
  refine ⟨mkKV_val_ne_empty key v, ?_, ?_, rfl, rfl, rfl⟩
  · intro h
    simp [mkKV, h]
  · intro h
    refine ⟨by simp [mkKV, h], ?_⟩
    intro hs
    cases v with
    | vUndefined => exact h (Or.inl rfl)
    | vNull => exact h (Or.inr (Or.inl rfl))
    | vStr s =>
      apply h
      right; right
      simp only [jsString] at hs
      simp [hs]
    | vBool b => cases b <;> simp [jsString] at hs
    | vNum n => exact int_repr_ne_empty n hs

/-- C1 witness at concrete inputs. -/
theorem C1_mkKV_safe_display_witness :
    (mkKV "k" (.vBool false)).val ≠ ""
    ∧ ((JSVal.vBool false = .vUndefined ∨ JSVal.vBool false = .vNull ∨
        JSVal.vBool false = .vStr "") → (mkKV "k" (.vBool false)).val = "unknown")
    ∧ (¬(JSVal.vBool false = .vUndefined ∨ JSVal.vBool false = .vNull ∨
        JSVal.vBool false = .vStr "") →
        (mkKV "k" (.vBool false)).val = jsString (.vBool false)
        ∧ jsString (.vBool false) ≠ "")
    ∧ safe (.error ()) (.vStr "unknown") = .vStr "unknown"
    ∧ (mkKV "k" (safe (.error ()) (.vStr "unknown"))).val = "unknown"
    ∧ (mkKV "k" (.vStr "unsupported")).val = "unsupported" :=
  C1_mkKV_safe_display "k" (.vBool false) ()

/-- `window.screen`: the properties gatherScreen reads (script.js 67-78). -/
structure OrientationInfo where
  otype : JSVal
  angle : JSVal
deriving DecidableEq

/-- The screen object; `orientation` is `none` when `screen.orientation`
is absent (falsy). -/
structure ScreenInfo where
  width : JSVal
  height : JSVal
  availWidth : JSVal
  availHeight : JSVal
  colorDepth : JSVal
  orientation : Option OrientationInfo
deriving DecidableEq

/-- The WebGL context as gatherHardware sees it (script.js 87-101):
`getContext` returns nothing, some step throws, or a context is obtained
and yields vendor/renderer parameter values. -/
inductive WebGLEnv where
  | absent : WebGLEnv
  | throws : WebGLEnv
  | ctx : JSVal → JSVal → WebGLEnv
deriving DecidableEq

/-- The battery manager's properties (script.js 109-113). -/
structure BatteryInfo where
  charging : JSVal
  level : JSVal
  chargingTime : JSVal
  dischargingTime : JSVal
deriving DecidableEq

/-- The network-information object's properties (script.js 123-129). -/
structure ConnInfo where
  effectiveType : JSVal
  downlink : JSVal
  rtt : JSVal
  saveData : JSVal
deriving DecidableEq

/-- A geolocation position's coordinate fields (script.js 158-160). -/
structure GeoPos where
  latitude : JSVal
  longitude : JSVal
  accuracy : JSVal
  altitude : JSVal
deriving DecidableEq

/-- One entry of `enumerateDevices()` (script.js 177-184). -/
structure MediaDevice where
  kind : String
  label : String
deriving DecidableEq

/-- The legacy `performance.timing` object (script.js 218, 223-225). -/
structure PerfTiming where
  navigationStart : JSVal
  domContentLoadedEventEnd : JSVal
  loadEventEnd : JSVal
deriving DecidableEq

/-- The navigation entry of `getEntriesByType('navigation')` (219-222). -/
structure NavEntry where
  domContentLoadedEventEnd : JSVal
  loadEventEnd : JSVal
deriving DecidableEq

/-- Availability of the DeviceMotion API (script.js 235-243): iOS-style
with a requestPermission function, plain availability, or absent. -/
inductive DeviceMotionEnv where
  | withRequestPermission : DeviceMotionEnv
  | available : DeviceMotionEnv
  | absent : DeviceMotionEnv
deriving DecidableEq

/-- The AudioContext probe's environment (script.js 270-292): constructor
absent, some step throwing, a context without `createOscillator`, or a
fully working context. -/
inductive AudioEnv where
  | absent : AudioEnv
  | throws : AudioEnv
  | limited : AudioEnv
  | ok : AudioEnv
deriving DecidableEq

/-- `navigator.clipboard` presence and its two methods (script.js 303-304). -/
structure ClipboardInfo where
  hasWriteText : Bool
  hasReadText : Bool
deriving DecidableEq

/-- The browser environment read by the probes.  Fallible asynchronous
APIs are `Option (Except Unit _)`: `none` means the API is absent,
`some (.error ())` that it throws/rejects, `some (.ok v)` that it yields
`v`.  `permissions` is the Permissions API: a query function from
permission name to outcome, or `none` when absent. -/
structure Env where
  cardsRoot : Bool
  userAgent : JSVal
  userAgentData : Option String
  platform : JSVal
  language : JSVal
  languages : Option (List String)
  cookieEnabled : Bool
  doNotTrack : JSVal
  vendor : JSVal
  screen : Option ScreenInfo
  devicePixelRatio : JSVal
  innerWidth : JSVal
  innerHeight : JSVal
  hardwareConcurrency : JSVal
  deviceMemory : JSVal
  maxTouchPoints : JSVal
  webgl : WebGLEnv
  getBattery : Option (Except Unit BatteryInfo)
  connection : Option ConnInfo
  onLine : Bool
  geolocationSupported : Bool
  permissions : Option (String → Except Unit String)
  position : Except Unit GeoPos
  mediaDevices : Option (Except Unit (List MediaDevice))
  timeOrigin : JSVal
  perfTiming : Option PerfTiming
  navEntry : Option NavEntry
  getEntriesThrows : Bool
  perfNow : Int
  deviceMotion : DeviceMotionEnv
  accelerometer : Bool
  canvasProbe : Except Unit String
  audioCtx : AudioEnv
  serviceWorker : Bool
  localStorageOk : Bool
  indexedDB : Bool
  showOpenFilePicker : Bool
  clipboard : Option ClipboardInfo
  bluetooth : Bool
  usb : Bool
  serial : Bool
  hid : Bool
  getGamepads : Bool

/-- `gatherBasic` (script.js 50-65). -/
def gatherBasic (env : Env) : Card :=
  mkCard "Browser & Locale"
    [mkKV "userAgent" (jsOr env.userAgent (.vStr "unknown")),
     mkKV "userAgentData"
       (safe (.ok (match env.userAgentData with
         | some j => .vStr j
         | none => .vStr "unsupported")) (.vStr "unknown")),
     mkKV "platform" (jsOr env.platform (.vStr "unknown")),
     mkKV "language" (jsOr env.language (.vStr "unknown")),
     mkKV "languages"
       (jsOr (match env.languages with
         | some ls => .vStr (String.intercalate ", " ls)
         | none => .vUndefined) (.vStr "unknown")),
     mkKV "cookieEnabled" (.vBool env.cookieEnabled),
     mkKV "doNotTrack" (jsOr env.doNotTrack (.vStr "unknown")),
     mkKV "vendor" (jsOr env.vendor (.vStr "unknown"))]

/-- `gatherScreen` (script.js 67-79).  Lines 69-74 read `window.screen || {}`
defensively, but line 75 dereferences the bare global `screen`; when the
screen object is absent that access throws, the partially built element is
discarded and the exception escapes the probe, so the absent case is
`.error ()`. -/
def gatherScreen (env : Env) : Except Unit Card :=
  match env.screen with
  | none => .error ()
  | some s =>
    .ok (mkCard "Display & Viewport"
      ([mkKV "screenWxH"
          (.vStr (jsString (jsOr s.width (.vStr "unknown")) ++ " x " ++
                  jsString (jsOr s.height (.vStr "unknown")))),
        mkKV "availWxH"
          (.vStr (jsString (jsOr s.availWidth (.vStr "unknown")) ++ " x " ++
                  jsString (jsOr s.availHeight (.vStr "unknown")))),
        mkKV "colorDepth" (jsNullish s.colorDepth (.vStr "unknown")),
        mkKV "pixelRatio" (jsNullish env.devicePixelRatio (.vStr "unknown")),
        mkKV "viewportWxH"
          (.vStr (jsString env.innerWidth ++ " x " ++ jsString env.innerHeight))] ++
       (match s.orientation with
        | some o =>
          [mkKV "orientation"
            (.vStr (jsString (jsOr o.otype (.vStr "unknown")) ++ " @ " ++
                    jsString (jsOr o.angle (.vNum 0)) ++ "°"))]
        | none => [])))

/-- `gatherHardware` (script.js 81-103). -/
def gatherHardware (env : Env) : Card :=
  mkCard "Hardware Hints"
    ([mkKV "hardwareConcurrency" (jsNullish env.hardwareConcurrency (.vStr "unknown")),
      mkKV "deviceMemory" (jsNullish env.deviceMemory (.vStr "unknown")),
      mkKV "maxTouchPoints" (jsNullish env.maxTouchPoints (.vStr "unknown"))] ++
     (match env.webgl with
      | .absent => [mkKV "webgl" (.vStr "unsupported")]
      | .throws => [mkKV "webgl" (.vStr "unknown")]
      | .ctx vendor renderer =>
        [mkKV "webglVendor" vendor, mkKV "webglRenderer" renderer]))

/-- `gatherBattery` (script.js 105-119). -/
def gatherBattery (env : Env) : Card :=
  mkCard "Battery"
    (match env.getBattery with
     | none => [mkKV "battery" (.vStr "unsupported")]
     | some (.error _) => [mkKV "battery" (.vStr "unknown")]
     | some (.ok b) =>
       [mkKV "charging" b.charging,
        mkKV "level" b.level,
        mkKV "chargingTime" b.chargingTime,
        mkKV "dischargingTime" b.dischargingTime])

/-- `gatherNetwork` (script.js 121-134). -/
def gatherNetwork (env : Env) : Card :=
  mkCard "Network"
    ([mkKV "online" (.vBool env.onLine)] ++
     (match env.connection with
      | some c =>
        [mkKV "effectiveType" (jsNullish c.effectiveType (.vStr "unknown")),
         mkKV "downlink" (jsNullish c.downlink (.vStr "unknown")),
         mkKV "rtt" (jsNullish c.rtt (.vStr "unknown")),
         mkKV "saveData" (jsNullish c.saveData (.vStr "unknown"))]
      | none => [mkKV "networkAPI" (.vStr "unsupported")]) ++
     [mkKV "publicIP" (.vStr "unknown (use server or STUN)")])

/-- The permission state gatherGeo computes (script.js 143-149): `'unknown'`
when the Permissions API is absent or the query throws, the queried state
otherwise. -/
def geoPermState (env : Env) : String :=
  match env.permissions with
  | none => "unknown"
  | some q =>
    match q "geolocation" with
    | .ok st => st
    | .error _ => "unknown"

/-- `gatherGeo` (script.js 136-168). -/
def gatherGeo (env : Env) : Card :=
  if !env.geolocationSupported then
    mkCard "Geolocation" [mkKV "geolocation" (.vStr "unsupported")]
  else
    mkCard "Geolocation"
      ([mkKV "permission" (.vStr (geoPermState env))] ++
       (if geoPermState env = "granted" ∨ geoPermState env = "prompt" then
          match env.position with
          | .ok pos =>
            [mkKV "coords"
               (.vStr (jsString pos.latitude ++ ", " ++ jsString pos.longitude)),
             mkKV "accuracy_m" pos.accuracy,
             mkKV "altitude" (jsNullish pos.altitude (.vStr "null"))]
          | .error _ => [mkKV "coords" (.vStr "unknown or blocked")]
        else
          [mkKV "coords" (.vStr "unknown (permission denied or prompt)")]))

/-- First-occurrence order of device kinds, as JavaScript object insertion
order produces for the `reduce` accumulator (script.js 179-181). -/
def kindOrder (ds : List MediaDevice) : List String :=
  ds.foldl (fun acc d => if d.kind ∈ acc then acc else acc ++ [d.kind]) []

/-- Number of devices of a given kind (script.js 179-181). -/
def countKind (ds : List MediaDevice) (k : String) : Nat :=
  (ds.filter (fun d => d.kind == k)).length

/-- `JSON.stringify` of the kind-count object (script.js 182). -/
def kindsJSON (ds : List MediaDevice) : String :=
  "\x7b" ++
  String.intercalate ","
    ((kindOrder ds).map (fun k => "\"" ++ k ++ "\":" ++ Nat.repr (countKind ds k))) ++
  "\x7d"

/-- `gatherMediaDevices` (script.js 170-189).  Note the two different
titles: `'Media Devices'` on the unsupported early return (line 174) and
`'Media & Devices'` otherwise (line 188). -/
def gatherMediaDevices (env : Env) : Card :=
  match env.mediaDevices with
  | none => mkCard "Media Devices" [mkKV "mediaDevices" (.vStr "unsupported")]
  | some (.error _) => mkCard "Media & Devices" [mkKV "mediaDevices" (.vStr "unknown")]
  | some (.ok devices) =>
    mkCard "Media & Devices"
      [mkKV "count" (.vNum devices.length),
       mkKV "kinds" (.vStr (kindsJSON devices)),
       mkKV "deviceLabelsAvailable" (.vBool (devices.any (fun d => d.label != "")))]

/-- The fixed permission names queried by gatherPermissions (script.js 193). -/
def permissionNames : List String :=
  ["geolocation", "microphone", "camera", "notifications", "persistent-storage",
   "push", "clipboard-read", "clipboard-write", "background-sync"]

/-- `gatherPermissions` (script.js 191-213).  Each query is individually
guarded (lines 200-207), so the outer catch at line 209 is unreachable and
the `'permissions'/'error'` row is never produced. -/
def gatherPermissions (env : Env) : Card :=
  mkCard "Permissions"
    (match env.permissions with
     | none => [mkKV "permissionsAPI" (.vStr "unsupported")]
     | some q =>
       permissionNames.map (fun name =>
         match q name with
         | .ok st => mkKV name (.vStr st)
         | .error _ => mkKV name (.vStr "unknown")))

/-- The `timeOrigin` row value (script.js 218):
`performance.timeOrigin || performance.timing?.navigationStart || 'unknown'`. -/
def timeOriginVal (env : Env) : JSVal :=
  jsOr
    (jsOr env.timeOrigin
      (match env.perfTiming with
       | some t => t.navigationStart
       | none => .vUndefined))
    (.vStr "unknown")

/-- `gatherPerformance` (script.js 215-230).  When `getEntriesByType`
throws, the rows appended before the throw (only the `timeOrigin` row)
remain in the element and the catch appends the `'performance'` row. -/
def gatherPerformance (env : Env) : Card :=
  mkCard "Performance"
    (if env.getEntriesThrows then
       [mkKV "timeOrigin" (timeOriginVal env),
        mkKV "performance" (.vStr "unknown")]
     else
       [mkKV "timeOrigin" (timeOriginVal env)] ++
       (match env.navEntry with
        | some nav =>
          [mkKV "domContentLoaded" nav.domContentLoadedEventEnd,
           mkKV "loadEventEnd" nav.loadEventEnd]
        | none =>
          match env.perfTiming with
          | some t =>
            [mkKV "domContentLoaded" t.domContentLoadedEventEnd,
             mkKV "loadEventEnd" t.loadEventEnd]
          | none => []) ++
       [mkKV "perfNow" (.vNum env.perfNow)])

/-- `gatherSensors` (script.js 232-247). -/
def gatherSensors (env : Env) : Card :=
  mkCard "Sensors"
    ((match env.deviceMotion with
      | .withRequestPermission =>
        [mkKV "DeviceMotion API" (.vStr "requires gesture to request"),
         mkKV "deviceMotionPermission" (.vStr "not-requested")]
      | .available => [mkKV "DeviceMotion API" (.vStr "available (may be restricted)")]
      | .absent => [mkKV "DeviceMotion API" (.vStr "unsupported")]) ++
     [mkKV "GenericSensor"
       (.vStr (if env.accelerometer then "available" else "unsupported"))])

/-- `gatherCanvasAudioFingerprintingProbe` (script.js 249-294). -/
def gatherCanvasAudioFingerprintingProbe (env : Env) : Card :=
  mkCard "Canvas / Audio Probes"
    [(match env.canvasProbe with
      | .ok data => mkKV "canvasProbe" (.vStr (data.take 80 ++ "..."))
      | .error _ => mkKV "canvasProbe" (.vStr "error")),
     (match env.audioCtx with
      | .absent => mkKV "audioContext" (.vStr "unsupported")
      | .throws => mkKV "audioContext" (.vStr "error")
      | .limited => mkKV "audioContext" (.vStr "limited")
      | .ok => mkKV "audioContext" (.vStr "available"))]

/-- `gatherWebAPIs` (script.js 296-313). -/
def gatherWebAPIs (env : Env) : Card :=
  mkCard "Web APIs"
    ([("ServiceWorker", env.serviceWorker),
      ("localStorage", env.localStorageOk),
      ("IndexedDB", env.indexedDB),
      ("FileSystem Access", env.showOpenFilePicker),
      ("Clipboard (write)",
        match env.clipboard with
        | some c => c.hasWriteText
        | none => false),
      ("Clipboard (read)",
        match env.clipboard with
        | some c => c.hasReadText
        | none => false),
      ("WebBluetooth", env.bluetooth),
      ("WebUSB", env.usb),
      ("WebSerial", env.serial),
      ("WebHID", env.hid),
      ("Gamepad", env.getGamepads)].map (fun kv => mkKV kv.1 (.vBool kv.2)))

/-- The generic substitute card the orchestrator renders when a probe
throws: `mkCard('error', 'unknown')` (script.js 337). -/
def errorCard : Card := mkCardStr "error" "unknown"

/-- Run one probe, substituting the generic error card when it throws
(script.js 332-339). -/
def runProbe (p : Env → Except Unit Card) (env : Env) : Card :=
  match p env with
  | .ok c => c
  | .error _ => errorCard

/-- The declared, ordered probe list (script.js 318-331). -/
def probes : List (Env → Except Unit Card) :=
  [fun e => .ok (gatherBasic e),
   gatherScreen,
   fun e => .ok (gatherHardware e),
   fun e => .ok (gatherBattery e),
   fun e => .ok (gatherNetwork e),
   fun e => .ok (gatherGeo e),
   fun e => .ok (gatherMediaDevices e),
   fun e => .ok (gatherPermissions e),
   fun e => .ok (gatherPerformance e),
   fun e => .ok (gatherSensors e),
   fun e => .ok (gatherCanvasAudioFingerprintingProbe e),
   fun e => .ok (gatherWebAPIs e)]

/-- `gatherAll` (script.js 315-340): nothing is rendered without the cards
root; otherwise each probe runs to completion in declared order and its
card (or the error card) is appended. -/
def gatherAll (env : Env) : List Card :=
  if env.cardsRoot then probes.map (fun p => runProbe p env) else []

/-- The rows of a card (empty for a paragraph card). -/
def Card.kvRows (c : Card) : List KV :=
  match c.content with
  | .rows l => l
  | .para _ => []

/-- The row keys of a card. -/
def Card.keys (c : Card) : List String :=
  c.kvRows.map KV.key

/-- The environment-determined signature of a card: its title and its row
keys, ignoring row values. -/
def cardSig (c : Card) : String × List String :=
  (c.title, c.keys)

/-- The key of a `mkKV` row is the key argument. -/
theorem mkKV_key (k : String) (v : JSVal) : (mkKV k v).key = k := rfl

/-- The compulsory loader duration (script.js 348): 7000 ms. -/
def minWaitMs : Nat := 7000

/-- Completion time of `Promise.all` over two waits (script.js 349): both
must finish, so the later one gates. -/
def promiseAll2Time (a b : Nat) : Nat := max a b

/-- Time from load start to the loader-hiding reveal in `initFlow`
(script.js 343-353), given the duration of the `gatherAll` run. -/
def initFlowRevealTime (gatherDuration : Nat) : Nat :=
  promiseAll2Time gatherDuration minWaitMs

/-- Time the refresh handler (script.js 356-364) takes before re-enabling
the button: it awaits only `gatherAll`, with no minimum-wait promise. -/
def refreshRevealTime (gatherDuration : Nat) : Nat := gatherDuration

/-- Settling time of the raced position promise (script.js 154-157): the
`getCurrentPosition` callback settles it after `settle` milliseconds
(`none` if the callback never fires), and the `setTimeout` rejects it at
8000 ms, so the await always finishes by 8000 ms. -/
def geoPositionWaitMs (settle : Option Nat) : Nat :=
  match settle with
  | some t => min t 8000
  | none => 8000

/-- Settling time of `await navigator.getBattery()` (script.js 109): a bare
await with no timeout, pending forever if the promise never settles. -/
def batteryAwaitMs (settle : Option Nat) : Option Nat := settle

/-- Settling time of `await navigator.permissions.query(...)` (script.js
203): a bare await with no timeout. -/
def permissionsQueryAwaitMs (settle : Option Nat) : Option Nat := settle

/-- Settling time of `await navigator.mediaDevices.enumerateDevices()`
(script.js 177): a bare await with no timeout. -/
def enumerateDevicesAwaitMs (settle : Option Nat) : Option Nat := settle

/-- A baseline environment: cards root present, every probed capability
absent, every optional value `undefined`, every fallible call failing. -/
def env0 : Env :=
  { cardsRoot := true
    userAgent := .vUndefined
    userAgentData := none
    platform := .vUndefined
    language := .vUndefined
    languages := none
    cookieEnabled := false
    doNotTrack := .vUndefined
    vendor := .vUndefined
    screen := none
    devicePixelRatio := .vUndefined
    innerWidth := .vUndefined
    innerHeight := .vUndefined
    hardwareConcurrency := .vUndefined
    deviceMemory := .vUndefined
    maxTouchPoints := .vUndefined
    webgl := .absent
    getBattery := none
    connection := none
    onLine := false
    geolocationSupported := false
    permissions := none
    position := .error ()
    mediaDevices := none
    timeOrigin := .vUndefined
    perfTiming := none
    navEntry := none
    getEntriesThrows := false
    perfNow := 0
    deviceMotion := .absent
    accelerometer := false
    canvasProbe := .error ()
    audioCtx := .absent
    serviceWorker := false
    localStorageOk := false
    indexedDB := false
    showOpenFilePicker := false
    clipboard := none
    bluetooth := false
    usb := false
    serial := false
    hid := false
    getGamepads := false }

/-- An environment where geolocation is supported and the permission query
answers `denied`. -/
def envGeoDenied : Env :=
  { env0 with
    geolocationSupported := true
    permissions := some (fun _ => .ok "denied") }

/-- An environment where geolocation is granted but the position promise
rejects (e.g. the 8-second race timed out). -/
def envGeoTimeout : Env :=
  { env0 with
    geolocationSupported := true
    permissions := some (fun _ => .ok "granted")
    position := .error () }

/-- C2: exhibit of the code bug.  On the environment where every underlying
API is absent, the screen probe raises past its own boundary (line 75
dereferences the bare global `screen`, bypassing the `window.screen || {}`
guard of line 69), contradicting the claim that no probe ever raises;
`gatherAll` still resolves, substituting the single generic error group for
that probe and continuing with the eleven remaining probes in order. -/
theorem C2_screen_probe_raises :
    gatherScreen env0 = .error ()
    ∧ gatherAll env0 =
        [gatherBasic env0, errorCard, gatherHardware env0, gatherBattery env0,
         gatherNetwork env0, gatherGeo env0, gatherMediaDevices env0,
         gatherPermissions env0, gatherPerformance env0, gatherSensors env0,
         gatherCanvasAudioFingerprintingProbe env0, gatherWebAPIs env0]
    ∧ (gatherAll env0).length = 12
    ∧ errorCard = ⟨"error", .para "unknown"⟩ :=
  ⟨rfl, rfl, rfl, rfl⟩

/-- C3: on initial load the reveal happens at the later of the gatherAll
completion and the fixed 7000 ms minimum wait — hence never before
7000 ms — while the refresh handler awaits only the gatherAll run, so its
duration is not gated by the minimum wait (e.g. a 2000 ms run finishes
before 7000 ms). -/
theorem C3_presentation_gate (d : Nat) :
    initFlowRevealTime d = max d minWaitMs
    ∧ minWaitMs ≤ initFlowRevealTime d
    ∧ d ≤ initFlowRevealTime d
    ∧ (initFlowRevealTime d = d ∨ initFlowRevealTime d = minWaitMs)
    ∧ refreshRevealTime d = d
    ∧ refreshRevealTime 2000 < minWaitMs := by
  unfold initFlowRevealTime promiseAll2Time refreshRevealTime minWaitMs
  omega

/-- C4: when geolocation is supported and the permission query answers any
state other than `granted`/`prompt`, the geolocation card is exactly the
`permission` row showing that state plus the `coords` row with value
`unknown (permission denied or prompt)`, and the result is independent of
the position API (no position request is consulted). -/
theorem C4_geo_denied (env : Env) (q : String → Except Unit String)
    (st : String) (p : Except Unit GeoPos)
    (hsupp : env.geolocationSupported = true)
    (hperm : env.permissions = some q)
    (hq : q "geolocation" = .ok st) (hne : st ≠ "")
    (hng : st ≠ "granted") (hnp : st ≠ "prompt") :
    gatherGeo env =
      ⟨"Geolocation",
       .rows [⟨"permission", st⟩,
              ⟨"coords", "unknown (permission denied or prompt)"⟩]⟩
    ∧ gatherGeo {env with position := p} = gatherGeo env := by
  have hst : geoPermState env = st := by
    simp [geoPermState, hperm, hq]
  have hst2 : geoPermState {env with geolocationSupported := true, position := p} = st := by
    simp [geoPermState, hperm, hq]
  have hcond : ¬(st = "granted" ∨ st = "prompt") := by
    rintro (h | h)
    · exact hng h
    · exact hnp h
  constructor
  · simp [gatherGeo, hsupp, hst, hcond, mkCard, mkKV, jsString, hne]
  · simp [gatherGeo, hsupp, hst, hst2, hcond]

/-- C4 witness: the denied-state scenario at a concrete environment. -/
theorem C4_geo_denied_witness :
    gatherGeo envGeoDenied =
      ⟨"Geolocation",
       .rows [⟨"permission", "denied"⟩,
              ⟨"coords", "unknown (permission denied or prompt)"⟩]⟩
    ∧ gatherGeo {envGeoDenied with position := .error ()} = gatherGeo envGeoDenied :=
  C4_geo_denied envGeoDenied (fun _ => .ok "denied") "denied" (.error ())
    rfl rfl rfl (by decide) (by decide) (by decide)

/-- C5 counterexample: the claim says the battery, permission-query and
media-enumeration awaits are bounded by a fixed timeout, but they are bare
awaits — when the underlying promise never settles (`none`), the await
never completes, so no timeout of a few seconds bounds them. -/
theorem C5_no_timeout_counterexample :
    batteryAwaitMs none = none
    ∧ permissionsQueryAwaitMs none = none
    ∧ enumerateDevicesAwaitMs none = none
    ∧ ¬(∃ t, batteryAwaitMs none = some t ∧ t ≤ 8000) :=
  ⟨rfl, rfl, rfl, by rintro ⟨t, h, _⟩; exact Option.noConfusion h⟩

/-- C5 (amended): only the geolocation position wait is raced against a
fixed timeout — it always settles within 8000 ms, and on rejection the
coords field degrades to its sentinel — while the battery, permission-query
and media-enumeration awaits simply take as long as the underlying promise,
with no timeout. -/
theorem C5_only_geo_wait_bounded (settle : Option Nat) :
    geoPositionWaitMs settle ≤ 8000
    ∧ batteryAwaitMs settle = settle
    ∧ permissionsQueryAwaitMs settle = settle
    ∧ enumerateDevicesAwaitMs settle = settle
    ∧ (gatherGeo envGeoTimeout).kvRows =
        [⟨"permission", "granted"⟩, ⟨"coords", "unknown or blocked"⟩] := by
  refine ⟨?_, rfl, rfl, rfl, by decide⟩
  cases settle with
  | none => simp [geoPositionWaitMs]
  | some t => simp [geoPositionWaitMs]

/-- C6: when no media-enumeration capability exists, the media card is
exactly one row, key `mediaDevices`, value `unsupported` (and carries the
early-return title `Media Devices`). -/
theorem C6_media_unsupported (env : Env) (h : env.mediaDevices = none) :
    gatherMediaDevices env =
      ⟨"Media Devices", .rows [⟨"mediaDevices", "unsupported"⟩]⟩
    ∧ (gatherMediaDevices env).kvRows.length = 1 := by
  constructor
  · simp [gatherMediaDevices, h, mkCard, mkKV, jsString]
  · simp [gatherMediaDevices, h, mkCard, Card.kvRows]

/-- C6 witness at the all-absent environment. -/
theorem C6_media_unsupported_witness :
    gatherMediaDevices env0 =
      ⟨"Media Devices", .rows [⟨"mediaDevices", "unsupported"⟩]⟩
    ∧ (gatherMediaDevices env0).kvRows.length = 1 :=
  C6_media_unsupported env0 rfl

/-- C10: the media card's title depends on capability support — it is
`Media Devices` exactly when the enumeration capability is absent, and
`Media & Devices` whenever enumeration is attempted, whether it succeeds
or fails. -/
theorem C10_media_title (env : Env) :
    (gatherMediaDevices env).title =
      (match env.mediaDevices with
       | none => "Media Devices"
       | some _ => "Media & Devices") := by
  cases h : env.mediaDevices with
  | none => simp [gatherMediaDevices, h, mkCard]
  | some r => cases r <;> simp [gatherMediaDevices, h, mkCard]

/-- C7: on every run with the cards root present, the cards appear in
exactly the declared probe order — Basic, Screen, Hardware, Battery,
Network, Geo, MediaDevices, Permissions, Performance, Sensors,
Canvas/Audio, WebAPIs — each probe being run to completion before the
next; the Screen slot holds the generic error card when that probe throws,
and the media slot's title varies with capability support. -/
theorem C7_declared_order (env : Env) (h : env.cardsRoot = true) :
    (gatherAll env).map Card.title =
      ["Browser & Locale",
       (match env.screen with
        | some _ => "Display & Viewport"
        | none => "error"),
       "Hardware Hints", "Battery", "Network", "Geolocation",
       (match env.mediaDevices with
        | none => "Media Devices"
        | some _ => "Media & Devices"),
       "Permissions", "Performance", "Sensors", "Canvas / Audio Probes",
       "Web APIs"] := by
  cases hs : env.screen <;> rcases hm : env.mediaDevices with _ | (r | r) <;>
    cases hg : env.geolocationSupported <;>
      simp [gatherAll, h, probes, runProbe, gatherBasic, gatherScreen,
        gatherHardware, gatherBattery, gatherNetwork, gatherGeo,
        gatherMediaDevices, gatherPermissions, gatherPerformance,
        gatherSensors, gatherCanvasAudioFingerprintingProbe, gatherWebAPIs,
        errorCard, mkCard, mkCardStr, hs, hm, hg]

/-- C7 witness at the all-absent environment. -/
theorem C7_declared_order_witness :
    (gatherAll env0).map Card.title =
      ["Browser & Locale",
       (match env0.screen with
        | some _ => "Display & Viewport"
        | none => "error"),
       "Hardware Hints", "Battery", "Network", "Geolocation",
       (match env0.mediaDevices with
        | none => "Media Devices"
        | some _ => "Media & Devices"),
       "Permissions", "Performance", "Sensors", "Canvas / Audio Probes",
       "Web APIs"] :=
  C7_declared_order env0 rfl

/-- Helper: the performance card's title and keys depend only on which
branches of `gatherPerformance` are taken, not on the timing values. -/
theorem gatherPerformance_sig_eq (e1 e2 : Env)
    (h1 : e1.getEntriesThrows = e2.getEntriesThrows)
    (h2 : e1.navEntry = e2.navEntry)
    (h3 : e1.perfTiming = e2.perfTiming) :
    cardSig (gatherPerformance e1) = cardSig (gatherPerformance e2) := by
  unfold gatherPerformance cardSig Card.keys Card.kvRows
  rw [h1, h2, h3]
  cases e2.getEntriesThrows <;> cases h : e2.navEntry <;>
    cases ht : e2.perfTiming <;> simp [mkCard, mkKV_key]

/-- C8: two orchestrator runs over environments that agree on everything
except the non-deterministic `performance.now()` reading produce cards
with identical titles and identical row keys for every group; only the
`perfNow` row's value can differ. -/
theorem C8_signature_deterministic (env : Env) (n1 n2 : Int) :
    (gatherAll {env with perfNow := n1}).map cardSig =
      (gatherAll {env with perfNow := n2}).map cardSig := by
  unfold gatherAll
  cases h : env.cardsRoot with
  | false => rfl
  | true =>
    rw [if_pos rfl, if_pos rfl]
    simp only [probes, List.map, List.cons.injEq, and_true]
    refine ⟨rfl, rfl, rfl, rfl, rfl, rfl, rfl, rfl, ?_, rfl, rfl, rfl⟩
    exact gatherPerformance_sig_eq _ _ rfl rfl rfl

/-- C9: `mkKV` replaces only `undefined`, `null` and the empty string with
the sentinel; the defined falsy values `false` and `0` are displayed as
`"false"` and `"0"`.  In particular, when `navigator.cookieEnabled` and
`navigator.onLine` are false, the `cookieEnabled` row of the basic card
and the `online` row of the network card display `"false"`, not
`"unknown"`. -/
theorem C9_falsy_values_preserved (k : String) (env : Env)
    (h1 : env.cookieEnabled = false) (h2 : env.onLine = false) :
    (mkKV k (.vBool false)).val = "false"
    ∧ (mkKV k (.vNum 0)).val = "0"
    ∧ (gatherBasic env).kvRows[5]? = some ⟨"cookieEnabled", "false"⟩
    ∧ (gatherNetwork env).kvRows[0]? = some ⟨"online", "false"⟩ := by
  have hz : jsString (.vNum 0) = "0" := by decide
  refine ⟨by simp [mkKV, jsString], by simp [mkKV, hz], ?_, ?_⟩
  · simp [gatherBasic, mkCard, Card.kvRows, h1, mkKV, jsString]
  · simp [gatherNetwork, mkCard, Card.kvRows, h2, mkKV, jsString]

/-- C9 witness at a concrete environment with both flags false. -/
theorem C9_falsy_values_preserved_witness :
    (mkKV "cookieEnabled" (.vBool false)).val = "false"
    ∧ (mkKV "cookieEnabled" (.vNum 0)).val = "0"
    ∧ (gatherBasic env0).kvRows[5]? = some ⟨"cookieEnabled", "false"⟩
    ∧ (gatherNetwork env0).kvRows[0]? = some ⟨"online", "false"⟩ :=
  C9_falsy_values_preserved "cookieEnabled" env0 rfl rfl
